import Mathlib

/-!
Shallow embedding of the tenant-connection broker (package `connection`):
the connect options and their default resolution, the v2 tenant pool with
its close/health/query operations, the catalog resolver, the process-wide
cache with its global mutex discipline, and the v1 and v2 pool-construction
functions as trace-producing executions over an environment ("world") that
fixes the outcome of every external I/O step (catalog lookup, pool open,
liveness probes, setup statements).

Machine integers: Go `int` and `time.Duration` (int64 nanoseconds) are
embedded as `Int`; none of the verified properties involve overflow, and
every constant involved is far below 2^63.  The per-pool RWMutex is not
modelled (methods are given sequentially); the global `sync.Mutex` IS
modelled, as a lock-depth counter where `Unlock` on an unlocked mutex is
the fatal runtime error it is in Go.
-/

namespace Connection

/-- One nanosecond per Go duration unit; `time.Minute` in nanoseconds. -/
def timeMinute : Int := 60 * 1000000000

/-- Go's `time.Hour` in nanoseconds. -/
def timeHour : Int := 60 * timeMinute

/-- `TenantConnectOptions` of tenant_con_v2.go.  The `QueryLogger` function
field is embedded by its presence alone (`hasQueryLogger`): no verified
property depends on the logged text. -/
structure TenantConnectOptions where
  tenant : String
  maxOpenConns : Int
  maxIdleConns : Int
  connMaxIdle : Int
  connMaxLifetime : Int
  forceUTC : Bool
  hasQueryLogger : Bool
  cacheEnabled : Bool
  cacheTTL : Int
  deriving DecidableEq, Repr

/-- Statement `if opts.CacheTTL == 0 { opts.CacheTTL = 55 * time.Minute }`
(tenant_con_v2.go line 57). -/
def defaultCacheTTL (o : TenantConnectOptions) : TenantConnectOptions :=
  if o.cacheTTL = 0 then { o with cacheTTL := 55 * timeMinute } else o

/-- Statement defaulting `ConnMaxLifetime` to one hour (line 60). -/
def defaultConnMaxLifetime (o : TenantConnectOptions) : TenantConnectOptions :=
  if o.connMaxLifetime = 0 then { o with connMaxLifetime := 1 * timeHour } else o

/-- Statement defaulting `ConnMaxIdle` to one hour (line 63). -/
def defaultConnMaxIdle (o : TenantConnectOptions) : TenantConnectOptions :=
  if o.connMaxIdle = 0 then { o with connMaxIdle := 1 * timeHour } else o

/-- Statement defaulting `MaxOpenConns` to 25 (line 66). -/
def defaultMaxOpenConns (o : TenantConnectOptions) : TenantConnectOptions :=
  if o.maxOpenConns = 0 then { o with maxOpenConns := 25 } else o

/-- Statement defaulting `MaxIdleConns` to 25 (line 69). -/
def defaultMaxIdleConns (o : TenantConnectOptions) : TenantConnectOptions :=
  if o.maxIdleConns = 0 then { o with maxIdleConns := 25 } else o

/-- Statement `if opts.CacheEnabled || (!opts.CacheEnabled && opts.CacheTTL > 0)
{ opts.CacheEnabled = true }` (tenant_con_v2.go line 74). -/
def resolveCacheEnabled (o : TenantConnectOptions) : TenantConnectOptions :=
  if o.cacheEnabled || (!o.cacheEnabled && o.cacheTTL > 0) then
    { o with cacheEnabled := true }
  else
    o

/-- The default-resolution block at the top of `GetTenantConnectionV2`
(tenant_con_v2.go lines 56-76): the six mutation statements applied to the
local `opts` in source order. -/
def applyDefaults (opts0 : TenantConnectOptions) : TenantConnectOptions :=
  resolveCacheEnabled (defaultMaxIdleConns (defaultMaxOpenConns
    (defaultConnMaxIdle (defaultConnMaxLifetime (defaultCacheTTL opts0)))))

/-- An opened `*sql.DB` handle.  The handle itself is opaque: every observable
behaviour of the pool (ping success, statement success, close error) is an
oracle supplied where the source performs the corresponding I/O. -/
structure SqlDB where
  deriving DecidableEq, Repr

/-- `TenantConnectionV2` of tenant_con_v2.go.  `createdAt` feeds only
`GetAge` and is dropped; the per-pool `sync.RWMutex` guards the fields
against concurrent access and has no sequential content. -/
structure TenantConnectionV2 where
  db : Option SqlDB
  searchPath : String
  options : TenantConnectOptions
  closed : Bool
  deriving DecidableEq, Repr

/-- `prefixConnection` of tenant_con.go. -/
def prefixConnection : String := "con-"

/-- The v1 cache key, `prefixConnection + tenant` (tenant_con.go line 24). -/
def v1CacheKey (tenant : String) : String := prefixConnection ++ tenant

/-- The v2 cache key, `prefixConnection + "v2-" + opts.Tenant`
(tenant_con_v2.go lines 80 and 159); Go's `+` associates left. -/
def v2CacheKey (tenant : String) : String := (prefixConnection ++ "v2-") ++ tenant

/-- The process-wide ristretto cache, restricted to the entries of one value
type: an association list from cache key to stored value, newest first. -/
abbrev CacheOf (α : Type) := List (String × α)

/-- `Connections.Get`. -/
def cacheGet {α : Type} (c : CacheOf α) (k : String) : Option α :=
  match c.find? (fun e => e.1 == k) with
  | some e => some e.2
  | none => none

/-- `Connections.Del`. -/
def cacheDel {α : Type} (c : CacheOf α) (k : String) : CacheOf α :=
  c.filter (fun e => e.1 != k)

/-- `Connections.SetWithTTL` with cost 1: stores `v` under `k`, replacing any
previous entry.  The TTL starts passive expiry in ristretto and is otherwise
unobservable here, so `ttl` is recorded by the caller's trace only. -/
def cacheSetWithTTL {α : Type} (c : CacheOf α) (k : String) (v : α) : CacheOf α :=
  (k, v) :: cacheDel c k

/-- The cache as the v2 functions see it. -/
abbrev Cache := CacheOf TenantConnectionV2

/-- `GetDB` (tenant_con_v2.go lines 221-235): nil receiver gives nil, a closed
pool gives nil while keeping `tc.DB` intact, otherwise the stored handle. -/
def getDB (tc : Option TenantConnectionV2) : Option SqlDB :=
  match tc with
  | none => none
  | some t => if t.closed then none else t.db

/-- `IsHealthy` (tenant_con_v2.go lines 200-213): nil receiver or closed pool
or nil handle is unhealthy; otherwise the liveness probe (`pingOk`) decides. -/
def isHealthy (tc : Option TenantConnectionV2) (pingOk : Bool) : Bool :=
  match tc with
  | none => false
  | some t => if t.closed || t.db.isNone then false else pingOk

/-- The value `Close` leaves behind: the (possibly updated) pool state, the
cache after any self-eviction, and whether an error value was returned.
`dbCloseFails` is the oracle for `tc.DB.Close()`. -/
structure CloseOutcome where
  state : Option TenantConnectionV2
  cache : Cache
  errReturned : Bool
  deriving DecidableEq, Repr

/-- `Close` (tenant_con_v2.go lines 169-197): nil receiver returns nil error;
an already-closed pool or a pool with no handle returns nil error unchanged;
otherwise the pool evicts its own cache entry when cache-managed, closes the
handle (keeping `DB` set), marks `closed`, and returns the handle's close
error. -/
def close (tc : Option TenantConnectionV2) (dbCloseFails : Bool) (cache : Cache) :
    CloseOutcome :=
  match tc with
  | none => { state := none, cache := cache, errReturned := false }
  | some t =>
    if t.closed || t.db.isNone then
      { state := some t, cache := cache, errReturned := false }
    else
      let cache' := if t.options.cacheEnabled then
          cacheDel cache (v2CacheKey t.options.tenant)
        else cache
      { state := some { t with closed := true }, cache := cache', errReturned := dbCloseFails }

/-- Result of `ExecWithLog`/`QueryWithLog`: either the explicit
"connection is closed or invalid" error with the statement never executed, or
an execution whose success is the database's (`ok`). -/
inductive ExecOutcome
  | closedErr
  | executed (ok : Bool)
  deriving DecidableEq, Repr

/-- `ExecWithLog` (tenant_con_v2.go lines 290-309): fetches the live handle
through `GetDB`, failing fast when it is gone; otherwise logs and executes. -/
def execWithLog (tc : Option TenantConnectionV2) (dbExecOk : Bool) : ExecOutcome :=
  match getDB tc with
  | none => ExecOutcome.closedErr
  | some _ => ExecOutcome.executed dbExecOk

/-- `QueryWithLog` (tenant_con_v2.go lines 312-331), same shape as
`ExecWithLog` with `*sql.Rows` in place of `sql.Result`. -/
def queryWithLog (tc : Option TenantConnectionV2) (dbQueryOk : Bool) : ExecOutcome :=
  match getDB tc with
  | none => ExecOutcome.closedErr
  | some _ => ExecOutcome.executed dbQueryOk

/-- A `*sql.Row` as handed back by `QueryRowWithLog`: either the row handle of
a live `QueryRowContext` call, or the empty `&sql.Row` literal returned when
the pool is unavailable. -/
structure SqlRow where
  fromLiveQuery : Bool
  deriving DecidableEq, Repr

/-- Modelled from the spec: `sql.Row` is a database/sql primitive outside this
repository's files.  Per the spec's words, the row-returning variant hands back
"a handle that itself errors on first use rather than propagating the error
directly": the first use (`Scan`) of the empty row handle fails, while a row
from a live query carries the query's own outcome. -/
def SqlRow.scanFails (r : SqlRow) : Bool := !r.fromLiveQuery

/-- `QueryRowWithLog` (tenant_con_v2.go lines 334-352): with the handle gone it
returns the empty row literal so the caller's `Scan` fails there, keeping the
call shape uniform; otherwise it logs and queries. -/
def queryRowWithLog (tc : Option TenantConnectionV2) : SqlRow :=
  match getDB tc with
  | none => { fromLiveQuery := false }
  | some _ => { fromLiveQuery := true }

/-- A row of the `catalog` table (catalog_con.go). -/
structure Catalog where
  driver : String
  userName : String
  password : String
  server : String
  databaseName : String
  schemaName : String
  deriving DecidableEq, Repr

/-- What the catalog store's single-row lookup yields for a given tenant:
exactly one scanned row, `sql.ErrNoRows`, or any other store error. -/
inductive QueryRowOutcome
  | row (c : Catalog)
  | noRows
  | storeErr
  deriving DecidableEq, Repr

/-- The errors `GetTenant` can return: the distinguished `ErrRecordNotFound`,
or the underlying store error passed through. -/
inductive GetTenantError
  | recordNotFound
  | storeError
  deriving DecidableEq, Repr

/-- `GetTenant` (catalog_con.go lines 43-75): scans the single-row lookup and
maps `sql.ErrNoRows` (and only it) to `ErrRecordNotFound`, passing any other
store error through and returning the scanned row otherwise. -/
def GetTenant (q : QueryRowOutcome) : Except GetTenantError Catalog :=
  match q with
  | QueryRowOutcome.row c => Except.ok c
  | QueryRowOutcome.noRows => Except.error GetTenantError.recordNotFound
  | QueryRowOutcome.storeErr => Except.error GetTenantError.storeError

/-- The observable steps of a pool-construction run, in execution order.
`lock`/`unlock` are the global `Mutex` operations; `execStmt` carries the
statement text and whether the database accepted it; `sqlOpen` is recorded
only when `sql.Open` yields a handle, and `dbClose` when that handle's
`Close` is called. -/
inductive Event
  | lock
  | unlock
  | cacheGetEv (key : String) (hit : Bool)
  | cacheDelEv (key : String)
  | cacheSetEv (key : String) (ttl : Int)
  | cachedPing (ok : Bool)
  | catalogQuery (tenant : String)
  | sqlOpen
  | setupPing (ok : Bool)
  | execStmt (stmt : String) (ok : Bool)
  | finalPing (ok : Bool)
  | dbClose
  deriving DecidableEq, Repr

/-- Running state of one v2 call: how many times the global mutex is held by
this call, the events so far, and the cache contents. -/
structure MState where
  lockDepth : Nat
  trace : List Event
  cache : Cache
  deriving DecidableEq, Repr

/-- `Mutex.Lock()`. -/
def mLock (s : MState) : MState :=
  { s with lockDepth := s.lockDepth + 1, trace := s.trace ++ [Event.lock] }

/-- `Mutex.Unlock()`: on an unlocked mutex this is Go's fatal
"sync: unlock of unlocked mutex" runtime error, rendered as `none`. -/
def mUnlock (s : MState) : Option MState :=
  match s.lockDepth with
  | 0 => none
  | d + 1 => some { s with lockDepth := d, trace := s.trace ++ [Event.unlock] }

/-- Append one observable event. -/
def logEv (s : MState) (e : Event) : MState :=
  { s with trace := s.trace ++ [e] }

/-- The environment of one `GetTenantConnectionV2` call: the cache contents at
entry and the outcome of each external I/O step the source can perform. -/
structure WorldV2 where
  cache : Cache
  cachedPingOk : Bool
  queryRow : QueryRowOutcome
  openOk : Bool
  setupPingOk : Bool
  searchPathOk : Bool
  timezoneOk : Bool
  finalPingOk : Bool
  deriving Repr

/-- The error values `GetTenantConnectionV2` can return, each one
`fmt.Errorf` site; `getTenantFailed` wraps (`%w`) the `GetTenant` error. -/
inductive V2Error
  | tenantRequired
  | getTenantFailed (wrapped : GetTenantError)
  | openFailed
  | pingFailed
  | searchPathFailed
  | timezoneFailed
  | finalValidationFailed
  deriving DecidableEq, Repr

/-- How one v2 call ends: a returned pool, a returned error, or the fatal
runtime error of unlocking an unlocked `sync.Mutex`. -/
inductive V2Outcome
  | ok (conn : TenantConnectionV2)
  | err (e : V2Error)
  | unlockFault
  deriving DecidableEq, Repr

/-- A finished v2 call: its outcome, the event trace, and the final cache. -/
structure RunResult where
  outcome : V2Outcome
  trace : List Event
  cache : Cache
  deriving DecidableEq, Repr

/-- Package a finished state with its outcome. -/
def finish (s : MState) (o : V2Outcome) : RunResult :=
  { outcome := o, trace := s.trace, cache := s.cache }

/-- The run as it stands when an `Unlock` hits an unlocked mutex. -/
def unlockFaultResult (s : MState) : RunResult :=
  { outcome := V2Outcome.unlockFault, trace := s.trace, cache := s.cache }

/-- The build phase of `GetTenantConnectionV2` (tenant_con_v2.go lines
94-166), entered with the defaults already applied: catalog lookup, DSN
build, `sql.Open`, pool configuration, setup ping, `SET search_path`,
optional `SET TIMEZONE`, final validation ping, and the cache store under
the global mutex.  Every post-open failure calls `db.Close()` first. -/
def buildPool (w : WorldV2) (opts : TenantConnectOptions) (s : MState) : RunResult :=
  let s := logEv s (Event.catalogQuery opts.tenant)
  match GetTenant w.queryRow with
  | Except.error e => finish s (V2Outcome.err (V2Error.getTenantFailed e))
  | Except.ok _catalog =>
    if !w.openOk then
      finish s (V2Outcome.err V2Error.openFailed)
    else
      let s := logEv s Event.sqlOpen
      let s := logEv s (Event.setupPing w.setupPingOk)
      if !w.setupPingOk then
        finish (logEv s Event.dbClose) (V2Outcome.err V2Error.pingFailed)
      else
        let s := logEv s (Event.execStmt ("SET search_path TO " ++ opts.tenant) w.searchPathOk)
        if !w.searchPathOk then
          finish (logEv s Event.dbClose) (V2Outcome.err V2Error.searchPathFailed)
        else
          let afterUTC := fun (s : MState) =>
            let conn : TenantConnectionV2 :=
              { db := some {}, searchPath := opts.tenant, options := opts, closed := false }
            let s := logEv s (Event.finalPing w.finalPingOk)
            if !w.finalPingOk then
              finish (logEv s Event.dbClose) (V2Outcome.err V2Error.finalValidationFailed)
            else if opts.cacheEnabled then
              let s := mLock s
              let key := v2CacheKey opts.tenant
              let s := { s with
                cache := cacheSetWithTTL s.cache key conn,
                trace := s.trace ++ [Event.cacheSetEv key opts.cacheTTL] }
              match mUnlock s with
              | none => unlockFaultResult s
              | some s => finish s (V2Outcome.ok conn)
            else
              finish s (V2Outcome.ok conn)
          if opts.forceUTC then
            let s := logEv s (Event.execStmt "SET TIMEZONE='UTC'" w.timezoneOk)
            if !w.timezoneOk then
              finish (logEv s Event.dbClose) (V2Outcome.err V2Error.timezoneFailed)
            else
              afterUTC s
          else
            afterUTC s

/-- `GetTenantConnectionV2` (tenant_con_v2.go lines 51-166): empty-tenant
validation, default resolution, then — when caching resolved enabled — the
cache check under the global mutex exactly as written: on a hit the mutex is
unlocked inside the `found` branch before the liveness probe; a live hit is
returned; a dead hit is deleted from the cache and control falls through to
the `Mutex.Unlock()` after the `found` block and on to the build phase. -/
def GetTenantConnectionV2 (w : WorldV2) (opts0 : TenantConnectOptions) : RunResult :=
  if opts0.tenant = "" then
    { outcome := V2Outcome.err V2Error.tenantRequired, trace := [], cache := w.cache }
  else
    let opts := applyDefaults opts0
    let s0 : MState := { lockDepth := 0, trace := [], cache := w.cache }
    if opts.cacheEnabled then
      let s := mLock s0
      let key := v2CacheKey opts.tenant
      match cacheGet s.cache key with
      | some cachedConn =>
        let s := logEv s (Event.cacheGetEv key true)
        match mUnlock s with
        | none => unlockFaultResult s
        | some s =>
          let s := logEv s (Event.cachedPing w.cachedPingOk)
          if w.cachedPingOk then
            finish s (V2Outcome.ok cachedConn)
          else
            let s := { s with
              cache := cacheDel s.cache key,
              trace := s.trace ++ [Event.cacheDelEv key] }
            match mUnlock s with
            | none => unlockFaultResult s
            | some s => buildPool w opts s
      | none =>
        let s := logEv s (Event.cacheGetEv key false)
        match mUnlock s with
        | none => unlockFaultResult s
        | some s => buildPool w opts s
    else
      buildPool w opts s0

/-- `Connection` of tenant_con.go (the v1 pool record), with the opaque
handle dropped: v1 never inspects it after the setup statement. -/
structure ConnectionV1 where
  searchPath : String
  deriving DecidableEq, Repr

/-- The cache as the v1 function sees it (it stores `Connection` values). -/
abbrev CacheV1 := CacheOf ConnectionV1

/-- The environment of one v1 `GetTenantConnection` call. -/
structure WorldV1 where
  cache : CacheV1
  queryRow : QueryRowOutcome
  openOk : Bool
  searchPathOk : Bool
  deriving Repr

/-- The error values v1 `GetTenantConnection` can return: the `GetTenant`
error passed through unwrapped, or the driver's open/exec error. -/
inductive V1Error
  | tenantLookup (e : GetTenantError)
  | openFailed
  | searchPathFailed
  deriving DecidableEq, Repr

/-- A finished v1 call. -/
structure RunResultV1 where
  outcome : Except V1Error ConnectionV1
  trace : List Event
  cache : CacheV1
  deriving Repr

/-- `GetTenantConnection` (tenant_con.go lines 19-53): the whole body runs
under `Mutex.Lock()` with a deferred `Unlock`, so every return path's trace
ends in `unlock`.  Cache hit returns the stored value; otherwise catalog
lookup, `sql.Open`, the `SET search_path` statement — whose failure returns
WITHOUT closing the just-opened handle, as in the source — then the cache
store and the configuration of the pool's lifetimes. -/
def GetTenantConnection (w : WorldV1) (tenant : String) : RunResultV1 :=
  let tr := [Event.lock]
  let key := v1CacheKey tenant
  match cacheGet w.cache key with
  | some conn =>
    { outcome := Except.ok conn,
      trace := tr ++ [Event.cacheGetEv key true, Event.unlock],
      cache := w.cache }
  | none =>
    let tr := tr ++ [Event.cacheGetEv key false, Event.catalogQuery tenant]
    match GetTenant w.queryRow with
    | Except.error e =>
      { outcome := Except.error (V1Error.tenantLookup e),
        trace := tr ++ [Event.unlock], cache := w.cache }
    | Except.ok _catalog =>
      if !w.openOk then
        { outcome := Except.error V1Error.openFailed,
          trace := tr ++ [Event.unlock], cache := w.cache }
      else
        let tr := tr ++ [Event.sqlOpen,
          Event.execStmt ("SET search_path TO " ++ tenant) w.searchPathOk]
        if !w.searchPathOk then
          { outcome := Except.error V1Error.searchPathFailed,
            trace := tr ++ [Event.unlock], cache := w.cache }
        else
          let conn : ConnectionV1 := { searchPath := tenant }
          { outcome := Except.ok conn,
            trace := tr ++ [Event.cacheSetEv key (1 * timeHour), Event.unlock],
            cache := cacheSetWithTTL w.cache key conn }

/-- Whether an event is the creation of a pool handle. -/
def Event.isOpen : Event → Bool
  | Event.sqlOpen => true
  | _ => false

/-- Whether an event closes the pool handle under construction. -/
def Event.isClose : Event → Bool
  | Event.dbClose => true
  | _ => false

/-- Handles opened along a trace. -/
def opensIn (tr : List Event) : Nat := tr.countP Event.isOpen

/-- Handle closes along a trace. -/
def closesIn (tr : List Event) : Nat := tr.countP Event.isClose

/-- A concrete catalog row used by the concrete executions below. -/
def catRowX : Catalog :=
  { driver := "postgres", userName := "u", password := "p", server := "s",
    databaseName := "d", schemaName := "x" }

/-- Options with tenant "x" and every other field at its Go zero value — in
particular `CacheEnabled` is (explicitly) false and `CacheTTL` is 0. -/
def optsX : TenantConnectOptions :=
  { tenant := "x", maxOpenConns := 0, maxIdleConns := 0, connMaxIdle := 0,
    connMaxLifetime := 0, forceUTC := false, hasQueryLogger := false,
    cacheEnabled := false, cacheTTL := 0 }

/-- Environment with an empty cache, a catalog row for the tenant, and every
external step succeeding. -/
def allOkWorld : WorldV2 :=
  { cache := [], cachedPingOk := true, queryRow := QueryRowOutcome.row catRowX,
    openOk := true, setupPingOk := true, searchPathOk := true,
    timezoneOk := true, finalPingOk := true }

/-- A live cached pool for tenant "x". -/
def cachedPoolX : TenantConnectionV2 :=
  { db := some {}, searchPath := "x", options := { optsX with cacheEnabled := true },
    closed := false }

/-- Environment where the cache holds an entry for tenant "x" whose liveness
probe fails; everything else would succeed. -/
def staleHitWorld : WorldV2 :=
  { cache := [(v2CacheKey "x", cachedPoolX)], cachedPingOk := false,
    queryRow := QueryRowOutcome.row catRowX, openOk := true, setupPingOk := true,
    searchPathOk := true, timezoneOk := true, finalPingOk := true }

/-- Environment with no catalog row for the tenant. -/
def notFoundWorld : WorldV2 :=
  { cache := [], cachedPingOk := true, queryRow := QueryRowOutcome.noRows,
    openOk := true, setupPingOk := true, searchPathOk := true,
    timezoneOk := true, finalPingOk := true }

/-- Environment where the setup liveness probe on the freshly opened handle
fails. -/
def v2PingFailWorld : WorldV2 :=
  { cache := [], cachedPingOk := true, queryRow := QueryRowOutcome.row catRowX,
    openOk := true, setupPingOk := false, searchPathOk := true,
    timezoneOk := true, finalPingOk := true }

/-- The v1 environment where `sql.Open` succeeds and the `SET search_path`
statement fails. -/
def v1LeakWorld : WorldV1 :=
  { cache := [], queryRow := QueryRowOutcome.row catRowX, openOk := true,
    searchPathOk := false }

/-- A pool whose handle pointer is nil and whose closed flag is unset. -/
def handleFreePool : TenantConnectionV2 :=
  { db := none, searchPath := "x", options := optsX, closed := false }

/-- A pool with a handle whose closed flag is already set. -/
def closedPoolX : TenantConnectionV2 :=
  { db := some {}, searchPath := "x", options := optsX, closed := true }

/-- A pool with a handle, not yet closed. -/
def livePoolX : TenantConnectionV2 :=
  { db := some {}, searchPath := "x", options := optsX, closed := false }

/-- Options with every field set to a nonzero value. -/
def nonZeroOpts : TenantConnectOptions :=
  { tenant := "t", maxOpenConns := 7, maxIdleConns := 8, connMaxIdle := 9,
    connMaxLifetime := 10, forceUTC := true, hasQueryLogger := true,
    cacheEnabled := true, cacheTTL := 11 }

/-- The statement `defaultCacheTTL` makes on the record, as one equation. -/
theorem defaultCacheTTL_eq (o : TenantConnectOptions) :
    defaultCacheTTL o =
      { o with cacheTTL := if o.cacheTTL = 0 then 55 * timeMinute else o.cacheTTL } := by
  unfold defaultCacheTTL
  split <;> simp_all

/-- The statement `defaultConnMaxLifetime` makes on the record. -/
theorem defaultConnMaxLifetime_eq (o : TenantConnectOptions) :
    defaultConnMaxLifetime o =
      { o with connMaxLifetime :=
          if o.connMaxLifetime = 0 then 1 * timeHour else o.connMaxLifetime } := by
  unfold defaultConnMaxLifetime
  split <;> simp_all

/-- The statement `defaultConnMaxIdle` makes on the record. -/
theorem defaultConnMaxIdle_eq (o : TenantConnectOptions) :
    defaultConnMaxIdle o =
      { o with connMaxIdle := if o.connMaxIdle = 0 then 1 * timeHour else o.connMaxIdle } := by
  unfold defaultConnMaxIdle
  split <;> simp_all

/-- The statement `defaultMaxOpenConns` makes on the record. -/
theorem defaultMaxOpenConns_eq (o : TenantConnectOptions) :
    defaultMaxOpenConns o =
      { o with maxOpenConns := if o.maxOpenConns = 0 then 25 else o.maxOpenConns } := by
  unfold defaultMaxOpenConns
  split <;> simp_all

/-- The statement `defaultMaxIdleConns` makes on the record. -/
theorem defaultMaxIdleConns_eq (o : TenantConnectOptions) :
    defaultMaxIdleConns o =
      { o with maxIdleConns := if o.maxIdleConns = 0 then 25 else o.maxIdleConns } := by
  unfold defaultMaxIdleConns
  split <;> simp_all

/-- Boolean reading of the `CacheEnabled` resolution statement: the condition
`ce || (!ce && ttl > 0)` is just `ce || ttl > 0`. -/
theorem resolveCacheEnabled_eq (o : TenantConnectOptions) :
    resolveCacheEnabled o =
      { o with cacheEnabled := o.cacheEnabled || decide (o.cacheTTL > 0) } := by
  unfold resolveCacheEnabled
  cases hce : o.cacheEnabled
  · split
    · rename_i h
      simp_all
    · rename_i h
      simp only [hce, Bool.false_or]
      simp only [hce, Bool.not_false, Bool.false_or, Bool.true_and, Bool.not_eq_true] at h
      rw [h, ← hce]
  · split
    · simp [hce]
    · simp_all

/-- Closed form of the whole default-resolution block, composed from the six
per-statement equations. -/
theorem applyDefaults_eq (o : TenantConnectOptions) :
    applyDefaults o =
      { tenant := o.tenant,
        maxOpenConns := if o.maxOpenConns = 0 then 25 else o.maxOpenConns,
        maxIdleConns := if o.maxIdleConns = 0 then 25 else o.maxIdleConns,
        connMaxIdle := if o.connMaxIdle = 0 then 1 * timeHour else o.connMaxIdle,
        connMaxLifetime := if o.connMaxLifetime = 0 then 1 * timeHour else o.connMaxLifetime,
        forceUTC := o.forceUTC,
        hasQueryLogger := o.hasQueryLogger,
        cacheEnabled := o.cacheEnabled ||
          decide ((if o.cacheTTL = 0 then 55 * timeMinute else o.cacheTTL) > 0),
        cacheTTL := if o.cacheTTL = 0 then 55 * timeMinute else o.cacheTTL } := by
  simp [applyDefaults, defaultCacheTTL_eq, defaultConnMaxLifetime_eq, defaultConnMaxIdle_eq,
    defaultMaxOpenConns_eq, defaultMaxIdleConns_eq, resolveCacheEnabled_eq]

/-- Default resolution never changes the tenant key. -/
theorem applyDefaults_tenant (o : TenantConnectOptions) :
    (applyDefaults o).tenant = o.tenant := by
  rw [applyDefaults_eq]

/-- The build phase closes exactly as many handles as it opened whenever it
returns an error, provided the trace it starts from is balanced. -/
theorem buildPool_err_closes (w : WorldV2) (opts : TenantConnectOptions) (s : MState)
    (hbal : opensIn s.trace = closesIn s.trace) (e : V2Error)
    (h : (buildPool w opts s).outcome = V2Outcome.err e) :
    closesIn (buildPool w opts s).trace = opensIn (buildPool w opts s).trace := by
  obtain ⟨cache, cachedPingOk, queryRow, openOk, setupPingOk, searchPathOk,
    timezoneOk, finalPingOk⟩ := w
  cases queryRow <;> cases openOk <;> cases setupPingOk <;> cases searchPathOk <;>
    cases timezoneOk <;> cases finalPingOk <;>
    cases hUTC : opts.forceUTC <;> cases hCE : opts.cacheEnabled <;>
    simp_all [buildPool, GetTenant, finish, logEv, mLock, mUnlock, unlockFaultResult,
      opensIn, closesIn, List.countP_append, List.countP_cons, Event.isOpen, Event.isClose]

/-- Every error return of `GetTenantConnectionV2` closes as many handles as it
opened: the cache-check phase opens none, and the build phase is balanced. -/
theorem v2_err_closes (w : WorldV2) (opts0 : TenantConnectOptions) :
    ∀ e, (GetTenantConnectionV2 w opts0).outcome = V2Outcome.err e →
      closesIn (GetTenantConnectionV2 w opts0).trace =
        opensIn (GetTenantConnectionV2 w opts0).trace := by
  unfold GetTenantConnectionV2
  split
  · intro e _
    simp [opensIn, closesIn]
  · dsimp only
    split
    · split
      · split
        · intro e h
          simp_all [mUnlock, mLock, logEv]
        · rename_i s hs
          simp only [mLock, logEv, mUnlock] at hs
          cases hs
          split
          · intro e h
            simp [finish] at h
          · split
            · intro e h
              simp [unlockFaultResult] at h
            · rename_i s' hs'
              simp [mUnlock, logEv] at hs'
      · split
        · intro e h
          simp_all [mUnlock, mLock, logEv]
        · rename_i s hs
          simp only [mLock, logEv, mUnlock] at hs
          cases hs
          intro e h
          refine buildPool_err_closes _ _ _ ?_ e h
          simp [opensIn, closesIn, Event.isOpen, Event.isClose]
    · intro e h
      refine buildPool_err_closes _ _ _ (by simp [opensIn, closesIn]) e h

/-- C1: for the failing input `TenantConnectOptions{Tenant: "x", CacheEnabled:
false}` (all other fields zero), default resolution forces the cache-enabled
flag back to true — the defaulted CacheTTL of 55 minutes makes the resolution
condition hold — and the resulting run consults the cache before building the
pool (the miss lookup is in the trace) and populates it afterwards (the store
is in the trace and the final cache holds the tenant's key), contradicting the
claim that explicitly disabled caching stays disabled. -/
theorem c1_cache_forced_on_despite_explicit_false :
    (applyDefaults optsX).cacheEnabled = true ∧
    Event.cacheGetEv (v2CacheKey "x") false ∈ (GetTenantConnectionV2 allOkWorld optsX).trace ∧
    Event.cacheSetEv (v2CacheKey "x") (55 * timeMinute) ∈
      (GetTenantConnectionV2 allOkWorld optsX).trace ∧
    cacheGet (GetTenantConnectionV2 allOkWorld optsX).cache (v2CacheKey "x") ≠ none := by
  decide

/-- C2: with caching enabled and a cached entry for tenant "x" whose liveness
probe fails, the executed event sequence is lock, hit, UNLOCK, failed probe,
cache delete — the eviction happens after the global lock is released, not
before — and the run then ends in the fatal unlock-of-unlocked-mutex fault of
the block-final `Mutex.Unlock()`, so the lock discipline is not balanced. -/
theorem c2_stale_hit_unlock_fault :
    GetTenantConnectionV2 staleHitWorld { optsX with cacheEnabled := true } =
      { outcome := V2Outcome.unlockFault,
        trace := [Event.lock, Event.cacheGetEv (v2CacheKey "x") true, Event.unlock,
          Event.cachedPing false, Event.cacheDelEv (v2CacheKey "x")],
        cache := [] } := by
  decide

/-- C3: for a tenant with no catalog row (and no pre-existing cache entry
under its key), `GetTenant` returns exactly the distinguished record-not-found
error, `GetTenantConnectionV2` fails with the error wrapping it, no pool
handle is opened along the trace, and the cache is left unchanged. -/
theorem c3_unknown_tenant_not_found (w : WorldV2) (opts : TenantConnectOptions)
    (ht : opts.tenant ≠ "") (hq : w.queryRow = QueryRowOutcome.noRows)
    (hc : cacheGet w.cache (v2CacheKey opts.tenant) = none) :
    GetTenant w.queryRow = Except.error GetTenantError.recordNotFound ∧
    (GetTenantConnectionV2 w opts).outcome =
      V2Outcome.err (V2Error.getTenantFailed GetTenantError.recordNotFound) ∧
    opensIn (GetTenantConnectionV2 w opts).trace = 0 ∧
    (GetTenantConnectionV2 w opts).cache = w.cache := by
  have hkey : (applyDefaults opts).tenant = opts.tenant := applyDefaults_tenant opts
  refine ⟨by simp [GetTenant, hq], ?_⟩
  unfold GetTenantConnectionV2
  rw [if_neg ht]
  by_cases hce : (applyDefaults opts).cacheEnabled
  · simp only [hce, if_true, mLock, logEv, hkey, hc]
    simp [mUnlock, buildPool, GetTenant, hq, logEv, finish, opensIn, closesIn,
      List.countP_append, Event.isOpen]
  · simp only [hce]
    simp [buildPool, GetTenant, hq, logEv, finish, opensIn, closesIn, Event.isOpen]

/-- C3 witness: the theorem at the concrete no-row environment and tenant "x". -/
theorem c3_unknown_tenant_not_found_witness :
    GetTenant notFoundWorld.queryRow = Except.error GetTenantError.recordNotFound ∧
    (GetTenantConnectionV2 notFoundWorld optsX).outcome =
      V2Outcome.err (V2Error.getTenantFailed GetTenantError.recordNotFound) ∧
    opensIn (GetTenantConnectionV2 notFoundWorld optsX).trace = 0 ∧
    (GetTenantConnectionV2 notFoundWorld optsX).cache = notFoundWorld.cache :=
  c3_unknown_tenant_not_found notFoundWorld optsX (by decide) rfl rfl

/-- C4 counterexample: a pool whose handle pointer is nil and whose closed
flag is unset.  `Close` on it returns no error but leaves the state — in
particular the closed flag — unchanged at false, refuting "after any call to
Close the closed flag is true". -/
theorem c4_close_counterexample :
    (close (some handleFreePool) true []).state = some handleFreePool ∧
    handleFreePool.closed = false ∧
    (close (some handleFreePool) true []).errReturned = false := by
  decide

/-- C4 (amended): a second `Close` on an already-closed pool is a no-op
returning no error (and, the function being total, cannot panic); and after
any `Close` on a pool whose underlying handle is set, the closed flag is true
regardless of whether the underlying handle's close returned an error. -/
theorem c4_close_idempotent :
    (∀ (t : TenantConnectionV2) (f : Bool) (c : Cache), t.closed = true →
       close (some t) f c = { state := some t, cache := c, errReturned := false }) ∧
    (∀ (t : TenantConnectionV2) (f : Bool) (c : Cache), t.db ≠ none →
       ∃ t', (close (some t) f c).state = some t' ∧ t'.closed = true) := by
  constructor
  · intro t f c h
    simp [close, h]
  · intro t f c h
    rcases hdb : t.db with _ | d
    · exact absurd hdb h
    · by_cases hc : t.closed
      · exact ⟨t, by simp [close, hc], hc⟩
      · refine ⟨{ t with closed := true }, ?_, rfl⟩
        simp [close, hc, hdb]

/-- C4 witness: both parts of the theorem at concrete pools, the second with
the underlying close reporting an error. -/
theorem c4_close_idempotent_witness :
    close (some closedPoolX) true [] =
      { state := some closedPoolX, cache := [], errReturned := false } ∧
    ∃ t', (close (some livePoolX) true []).state = some t' ∧ t'.closed = true :=
  ⟨c4_close_idempotent.1 closedPoolX true [] (by decide),
   c4_close_idempotent.2 livePoolX true [] (by decide)⟩

/-- C5: on any pool whose closed flag is set, every operation returns an
explicit failure value (the functions are total, so none can panic):
`IsHealthy` is false whatever the probe would say, `GetDB` is nil,
`ExecWithLog` and `QueryWithLog` return the closed-connection error without
executing, and `QueryRowWithLog` returns the empty row handle whose first use
fails. -/
theorem c5_closed_pool_operations (t : TenantConnectionV2) (p e q : Bool)
    (h : t.closed = true) :
    isHealthy (some t) p = false ∧ getDB (some t) = none ∧
    execWithLog (some t) e = ExecOutcome.closedErr ∧
    queryWithLog (some t) q = ExecOutcome.closedErr ∧
    (queryRowWithLog (some t)).scanFails = true := by
  simp [isHealthy, getDB, execWithLog, queryWithLog, queryRowWithLog, SqlRow.scanFails, h]

/-- C5 witness: the theorem at a concrete closed pool. -/
theorem c5_closed_pool_operations_witness :
    isHealthy (some closedPoolX) true = false ∧ getDB (some closedPoolX) = none ∧
    execWithLog (some closedPoolX) true = ExecOutcome.closedErr ∧
    queryWithLog (some closedPoolX) true = ExecOutcome.closedErr ∧
    (queryRowWithLog (some closedPoolX)).scanFails = true :=
  c5_closed_pool_operations closedPoolX true true true (by decide)

/-- C6: for `TenantConnectOptions{Tenant: "x"}` with all other fields zero,
default resolution yields exactly MaxOpenConns 25, MaxIdleConns 25,
ConnMaxIdle 1h, ConnMaxLifetime 1h and CacheTTL 55min; and for every options
value it keeps the tenant and never overwrites a numeric/duration field the
caller set to a nonzero value. -/
theorem c6_default_resolution :
    ((applyDefaults optsX).maxOpenConns = 25 ∧
     (applyDefaults optsX).maxIdleConns = 25 ∧
     (applyDefaults optsX).connMaxIdle = 1 * timeHour ∧
     (applyDefaults optsX).connMaxLifetime = 1 * timeHour ∧
     (applyDefaults optsX).cacheTTL = 55 * timeMinute) ∧
    (∀ o : TenantConnectOptions,
      (applyDefaults o).tenant = o.tenant ∧
      (o.maxOpenConns ≠ 0 → (applyDefaults o).maxOpenConns = o.maxOpenConns) ∧
      (o.maxIdleConns ≠ 0 → (applyDefaults o).maxIdleConns = o.maxIdleConns) ∧
      (o.connMaxIdle ≠ 0 → (applyDefaults o).connMaxIdle = o.connMaxIdle) ∧
      (o.connMaxLifetime ≠ 0 → (applyDefaults o).connMaxLifetime = o.connMaxLifetime) ∧
      (o.cacheTTL ≠ 0 → (applyDefaults o).cacheTTL = o.cacheTTL)) := by
  constructor
  · decide
  · intro o
    rw [applyDefaults_eq]
    refine ⟨rfl, ?_, ?_, ?_, ?_, ?_⟩ <;> intro h <;> simp [h]

/-- C6 witness: the preservation half of the theorem at an options value
whose fields are all nonzero. -/
theorem c6_default_resolution_witness :
    (applyDefaults nonZeroOpts).maxOpenConns = 7 ∧
    (applyDefaults nonZeroOpts).cacheTTL = 11 := by
  have h := c6_default_resolution.2 nonZeroOpts
  exact ⟨h.2.1 (by decide), h.2.2.2.2.2 (by decide)⟩

/-- C7: a call with an empty tenant string returns the validation error with
an empty event trace — no lock, no cache operation, no catalog query, no
`sql.Open` — and the cache unchanged; the failure is a returned error value,
not a panic. -/
theorem c7_empty_tenant (w : WorldV2) (opts : TenantConnectOptions)
    (h : opts.tenant = "") :
    GetTenantConnectionV2 w opts =
      { outcome := V2Outcome.err V2Error.tenantRequired, trace := [], cache := w.cache } := by
  simp [GetTenantConnectionV2, h]

/-- C7 witness: the theorem at concrete options with the empty tenant. -/
theorem c7_empty_tenant_witness :
    GetTenantConnectionV2 allOkWorld { optsX with tenant := "" } =
      { outcome := V2Outcome.err V2Error.tenantRequired, trace := [],
        cache := allOkWorld.cache } :=
  c7_empty_tenant allOkWorld { optsX with tenant := "" } rfl

/-- C8 counterexample: in v1 `GetTenantConnection`, with a cache miss, a
catalog row present, `sql.Open` succeeding and the `SET search_path`
statement failing, the call returns the error with one handle opened and
none closed — the half-built handle leaks, refuting the claim for v1. -/
theorem c8_v1_leak_counterexample :
    (GetTenantConnection v1LeakWorld "x").outcome = Except.error V1Error.searchPathFailed ∧
    opensIn (GetTenantConnection v1LeakWorld "x").trace = 1 ∧
    closesIn (GetTenantConnection v1LeakWorld "x").trace = 0 :=
  ⟨rfl, by decide, by decide⟩

/-- C8 (amended): every error return of v2 `GetTenantConnectionV2` closes
exactly as many handles as it opened (each post-open failure — setup ping,
search_path, timezone, final validation — calls `db.Close()` first); in v1
`GetTenantConnection` the search_path failure path, its only post-open
failure, returns the error with the just-opened handle left unclosed. -/
theorem c8_post_open_cleanup :
    (∀ (w : WorldV2) (opts : TenantConnectOptions) (e : V2Error),
        (GetTenantConnectionV2 w opts).outcome = V2Outcome.err e →
        closesIn (GetTenantConnectionV2 w opts).trace =
          opensIn (GetTenantConnectionV2 w opts).trace) ∧
    (∀ (w : WorldV1) (tenant : String) (c : Catalog),
        cacheGet w.cache (v1CacheKey tenant) = none →
        w.queryRow = QueryRowOutcome.row c →
        w.openOk = true → w.searchPathOk = false →
        (GetTenantConnection w tenant).outcome = Except.error V1Error.searchPathFailed ∧
        opensIn (GetTenantConnection w tenant).trace = 1 ∧
        closesIn (GetTenantConnection w tenant).trace = 0) := by
  constructor
  · intro w opts e h
    exact v2_err_closes w opts e h
  · intro w tenant c hc hq ho hs
    simp [GetTenantConnection, hc, hq, GetTenant, ho, hs, opensIn, closesIn,
      List.countP_append, List.countP_cons, Event.isOpen, Event.isClose]

/-- C8 witness: the v2 half at a concrete failing setup ping (balanced
open/close counts), and the v1 half at the concrete leaking environment. -/
theorem c8_post_open_cleanup_witness :
    closesIn (GetTenantConnectionV2 v2PingFailWorld optsX).trace =
      opensIn (GetTenantConnectionV2 v2PingFailWorld optsX).trace ∧
    opensIn (GetTenantConnection v1LeakWorld "x").trace = 1 :=
  ⟨c8_post_open_cleanup.1 v2PingFailWorld optsX V2Error.pingFailed (by decide),
   (c8_post_open_cleanup.2 v1LeakWorld "x" catRowX rfl rfl rfl rfl).2.1⟩

/-- C9 counterexample: the v1 key of tenant "v2-x" and the v2 key of tenant
"x" are the same string, refuting "never collide" for arbitrary pairs. -/
theorem c9_key_collision_counterexample : v1CacheKey "v2-x" = v2CacheKey "x" := by
  decide

/-- C9 (amended): the v1 key of `t1` and the v2 key of `t2` coincide exactly
when `t1` is the version tag "v2-" followed by `t2`; for every other pair —
in particular whenever `t1` does not carry the v2 version tag — the two
generations' keys are distinct. -/
theorem c9_keys_collide_iff (t1 t2 : String) :
    v1CacheKey t1 = v2CacheKey t2 ↔ t1 = "v2-" ++ t2 := by
  unfold v1CacheKey v2CacheKey prefixConnection
  constructor
  · intro h
    have hd := congrArg String.data h
    simp only [String.data_append] at hd
    rw [List.append_assoc] at hd
    have h2 : t1.data = ("v2-" ++ t2).data := by
      rw [String.data_append]
      exact List.append_cancel_left hd
    exact String.ext h2
  · intro h
    apply String.ext
    simp [h, String.data_append, List.append_assoc]

/-- C10: the nil-receiver guards of the public methods: `Close` on a nil
pool returns no error and touches nothing, `IsHealthy` on nil is false
whatever the probe would have said, and `GetDB` on nil is nil; each is a
total function returning an explicit value, so none can panic. -/
theorem c10_nil_receiver_safe :
    (∀ (f : Bool) (c : Cache),
        close none f c = { state := none, cache := c, errReturned := false }) ∧
    (∀ p : Bool, isHealthy none p = false) ∧
    getDB none = none :=
  ⟨fun _ _ => rfl, fun _ => rfl, rfl⟩

end Connection
